import Mathlib

/-!
Shallow embedding of the autosynth batch driver (`autosynth/multi.py`),
its log collector (`autosynth/log.py`) and the xunit report writer
(`autosynth/xunit.py`), together with theorems settling the frozen claims
about the issue-reporting state machine, the generator invocation, config
loading and the batch loop.

The GitHub REST client (`autosynth/github.py`) is not part of the sources;
its operations are modelled from the spec as a tracker state plus a trace of
mutation actions.  The skip sentinel `autosynth.synth.EXIT_CODE_SKIPPED` is
likewise modelled from the spec (value 28).
-/

/-- Python-level exceptions relevant to the embedded code. -/
inductive PyError where
  | keyError
  | attributeError
  | httpError
deriving Repr, DecidableEq

/-- Modelled from the spec: a TrackerIssue as returned by the issue system.
`number`, `title`, `state` and `labels` are the fields the driver reads.
(The `url` field is used only in log messages and is omitted.) -/
structure Issue where
  number : Nat
  title : String
  state : String
  labels : List String
deriving Repr, DecidableEq

/-- Modelled from the spec: one mutation of the external tracker, in the
order the driver issues them (create issue / comment / patch state). -/
inductive GhAction where
  | createIssue (repository title body : String) (labels : List String)
  | createIssueComment (repository : String) (issue_number : Nat) (comment : String)
  | patchIssue (repository : String) (issue_number : Nat) (state : String)
deriving Repr, DecidableEq

/-- State of one batch run as seen through the GitHub client: the external
tracker contents (pairs of repository and issue, in list order), the next
issue number the tracker will allocate, the per-run memo of
`_list_issues_cached` (multi.py 107-110), and the trace of tracker
mutations performed so far. -/
structure RunState where
  tracker : List (String × Issue)
  nextNumber : Nat
  cache : List ((String × String × String) × List Issue)
  trace : List GhAction
deriving Repr, DecidableEq

/-- Modelled from the spec: `gh.list_issues(repository, state, label)` returns
the tracker issues of that repository whose state matches and whose labels
contain `label`, in tracker list order. -/
def list_issues (st : RunState) (repository state label : String) : List Issue :=
  (st.tracker.filter
    (fun p => p.1 == repository && p.2.state == state && p.2.labels.contains label)).map
    Prod.snd

/-- Modelled from the spec: `gh.create_issue(repository, title, body, labels)`
creates a fresh open issue on the tracker and records the mutation. -/
def create_issue (st : RunState) (repository title body : String)
    (labels : List String) : Issue × RunState :=
  let issue : Issue :=
    { number := st.nextNumber, title := title, state := "open", labels := labels }
  (issue,
    { st with
      tracker := st.tracker ++ [(repository, issue)]
      nextNumber := st.nextNumber + 1
      trace := st.trace ++ [GhAction.createIssue repository title body labels] })

/-- Modelled from the spec: `gh.create_issue_comment(repository, issue_number,
comment)` records the comment mutation. -/
def create_issue_comment (st : RunState) (repository : String) (issue_number : Nat)
    (comment : String) : RunState :=
  { st with trace := st.trace ++ [GhAction.createIssueComment repository issue_number comment] }

/-- Modelled from the spec: `gh.patch_issue(repository, issue_number, state)`
sets the state of the matching tracker issue and records the mutation. -/
def patch_issue (st : RunState) (repository : String) (issue_number : Nat)
    (state : String) : RunState :=
  { st with
    tracker := st.tracker.map
      (fun p =>
        if p.1 == repository && p.2.number == issue_number then
          (p.1, { p.2 with state := state })
        else p)
    trace := st.trace ++ [GhAction.patchIssue repository issue_number state] }

/-- Embeds `_list_issues_cached` (multi.py 107-110): an `functools.lru_cache`
memo keyed by the call arguments.  On a hit the cached list is returned
unchanged; on a miss `list_issues` is consulted and the result stored. -/
def _list_issues_cached (st : RunState) (repository state label : String) :
    List Issue × RunState :=
  match st.cache.find?
      (fun e => e.1.1 == repository && e.1.2.1 == state && e.1.2.2 == label) with
  | some e => (e.2, st)
  | none =>
    let issues := list_issues st repository state label
    (issues, { st with cache := st.cache ++ [((repository, state, label), issues)] })

/-- Embeds `_close_issue` (multi.py 113-125): on `None` do nothing, otherwise
post the fixed closing comment and then patch the issue state to closed. -/
def _close_issue (st : RunState) (repository : String) (existing_issue : Option Issue) :
    RunState :=
  match existing_issue with
  | none => st
  | some issue =>
    patch_issue
      (create_issue_comment st repository issue.number
        "Autosynth passed, closing! :green_heart:")
      repository issue.number "closed"

/-- The f-string `message` of `_file_or_comment_on_issue` (multi.py 131-139):
the captured output in a fenced block plus the sponge build-log link built
from `KOKORO_BUILD_ID`. -/
def failure_message (kokoro output : String) : String :=
  "Here\x27s the output from running `synth.py`:\n\n```\n" ++ output ++
    "\n```\n\nGoogle internal developers can see the full log [here](https://sponge/" ++
    kokoro ++ ").\n"

/-- The `issue_details` body of a fresh failure issue (multi.py 142-144). -/
def issue_details (name kokoro output : String) : String :=
  "Hello! Autosynth couldn\x27t regenerate " ++ name ++ ". :broken_heart:\n\n" ++
    failure_message kokoro output

/-- The `comment_body` posted on an already-open failure issue
(multi.py 158-160). -/
def still_failing_comment (name kokoro output : String) : String :=
  "Autosynth is still having trouble generating " ++ name ++ ". :sob:\n\n" ++
    failure_message kokoro output

/-- The label set of a fresh failure issue (multi.py 145-149): the fixed three
labels, plus the API-specific label exactly when `gh.get_api_label` (modelled
from the spec as an oracle `api`) yields one. -/
def failure_labels (api : String → String → Option String) (repository name : String) :
    List String :=
  match api repository name with
  | some l => ["autosynth failure", "priority: p1", "type: bug"] ++ [l]
  | none => ["autosynth failure", "priority: p1", "type: bug"]

/-- Embeds `_file_or_comment_on_issue` (multi.py 128-165): with no existing
issue, create one with the fixed body and labels; otherwise comment on the
existing issue. -/
def _file_or_comment_on_issue (api : String → String → Option String) (kokoro : String)
    (st : RunState) (name repository issue_title : String)
    (existing_issue : Option Issue) (output : String) : RunState :=
  match existing_issue with
  | none =>
    (create_issue st repository issue_title (issue_details name kokoro output)
      (failure_labels api repository name)).2
  | some issue =>
    create_issue_comment st repository issue.number
      (still_failing_comment name kokoro output)

/-- Embeds `report_to_github` (multi.py 168-198): fetch the open
"autosynth failure" issues through the per-run cache, select the first whose
title matches, then close on success or file/comment on failure. -/
def report_to_github (api : String → String → Option String) (kokoro : String)
    (st : RunState) (name repository : String) (error : Bool) (output : String) :
    RunState :=
  let issue_title := "Synthesis failed for " ++ name
  let fetched := _list_issues_cached st repository "open" "autosynth failure"
  let existing_issue := (fetched.1.filter (fun issue => issue.title == issue_title)).head?
  if !error then
    _close_issue fetched.2 repository existing_issue
  else
    _file_or_comment_on_issue api kokoro fetched.2 name repository issue_title
      existing_issue output

/-- A library configuration entry (`load_config` docstring, multi.py 212-222):
required `name` and `repository`, optional string fields, and the two boolean
options.  Optional string fields are `Option String` (`none` = key absent). -/
structure Library where
  name : String
  repository : String
  synthPath : Option String := none
  branchSuffix : Option String := none
  prTitle : Option String := none
  metadataPath : Option String := none
  deprecatedExecution : Bool := false
  noCreateIssue : Bool := false
deriving Repr, DecidableEq

/-- Python truthiness of `library.get(key)` for an optional string field:
`None` and the empty string are falsy. -/
def truthy : Option String → Bool
  | none => false
  | some s => !(s == "")

/-- The `library_args` list built by `synthesize_library` (multi.py 55-70):
the four always-present flags (empty string when the key is unset), then
`--metadata-path` when that field is truthy and `--deprecated-execution`
when set. -/
def library_args (library : Library) : List String :=
  ["--repository", library.repository,
   "--synth-path", (library.synthPath.getD ""),
   "--branch-suffix", (library.branchSuffix.getD ""),
   "--pr-title", (library.prTitle.getD "")] ++
  (if truthy library.metadataPath then
    ["--metadata-path", library.metadataPath.getD ""]
  else []) ++
  (if library.deprecatedExecution then ["--deprecated-execution"] else [])

/-- Modelled from the spec: `autosynth/synth.py` is not among the sources;
the spec designates 28 as the skip sentinel exit code. -/
def EXIT_CODE_SKIPPED : Int := 28

/-- The result dict returned by `synthesize_library` (multi.py 78-83). -/
structure SynthResult where
  name : String
  output : String
  error : Bool
  skipped : Bool
deriving Repr, DecidableEq

/-- Embeds `synthesize_library` (multi.py 34-83).  The Python builds
`command = [sys.executable, "-m", "autosynth.synth"]` and `library_args`,
then calls `runner(command, env)` (line 73) — `library_args` and
`extra_args` are not part of that call.  Alongside the result dict this
embedding returns the exact list the runner was applied to. -/
def synthesize_library (pythonExe : String) (library : Library)
    (extra_args : List String) (runner : List String → Int × String) :
    SynthResult × List String :=
  let command := [pythonExe, "-m", "autosynth.synth"]
  let args := library_args library
  let ro := runner command
  let error := !(ro.1 == 0 || ro.1 == EXIT_CODE_SKIPPED)
  let skipped := ro.1 == EXIT_CODE_SKIPPED
  ({ name := library.name, output := ro.2, error := error, skipped := skipped },
   command)

/-- The data `make_report` (multi.py 86-104) passes to the report template:
the run name, the count of results whose error flag is set, the count of
skipped results, and the results themselves.  (Template rendering and the
file write are external.) -/
structure Report where
  name : String
  failures : Nat
  skips : Nat
  results : List SynthResult
deriving Repr, DecidableEq

/-- Embeds `make_report` (multi.py 86-104). -/
def make_report (name : String) (results : List SynthResult) : Report :=
  { name := name
    failures := (results.filter (fun result => result.error)).length
    skips := (results.filter (fun result => result.skipped)).length
    results := results }

/-- Embeds `LogCollector` (log.py 21-30): `__init__` installs the two list
attributes `successes` and `failures`. -/
structure LogCollector where
  successes : List (String × String)
  failures : List (String × String)
deriving Repr, DecidableEq

/-- `LogCollector()` (log.py 22-24). -/
def LogCollector.init : LogCollector :=
  { successes := [], failures := [] }

/-- `add_success` (log.py 26-27). -/
def LogCollector.add_success (c : LogCollector) (name log : String) : LogCollector :=
  { c with successes := c.successes ++ [(name, log)] }

/-- `add_failure` (log.py 29-30). -/
def LogCollector.add_failure (c : LogCollector) (name log : String) : LogCollector :=
  { c with failures := c.failures ++ [(name, log)] }

/-- One call of the public LogCollector interface. -/
inductive LogOp where
  | success (name log : String)
  | failure (name log : String)
deriving Repr, DecidableEq

/-- A sequence of public calls applied to a collector. -/
def LogCollector.applyOps (c : LogCollector) : List LogOp → LogCollector
  | [] => c
  | LogOp.success name log :: rest => (c.add_success name log).applyOps rest
  | LogOp.failure name log :: rest => (c.add_failure name log).applyOps rest

/-- Python attribute lookup on a LogCollector instance: `__init__`
(log.py 22-24) installs exactly `successes` and `failures`; any other name
raises `AttributeError`. -/
def LogCollector.getattr (c : LogCollector) (attr : String) :
    Except PyError (List (String × String)) :=
  match (([("successes", c.successes), ("failures", c.failures)]).find?
      (fun p => p.1 == attr)) with
  | some p => Except.ok p.2
  | none => Except.error PyError.attributeError

/-- Embeds `write_xml_log` (xunit.py 21-32): its render reads
`log_collector.log_entries` (lines 27-28).  Template rendering and the file
write are external; the embedding models the data extraction, which on
success would package the entries for the template. -/
def write_xml_log (name : String) (log_collector : LogCollector)
    (output_file_path : String) : Except PyError (String × String × List (String × String)) :=
  match log_collector.getattr "log_entries" with
  | Except.error e => Except.error e
  | Except.ok log_entries => Except.ok (name, output_file_path, log_entries)

/-- The YAML document at the config path, when it exists: the value of its
top-level `libraries` key, if present. -/
structure YamlDoc where
  libraries : Option (List Library)
deriving Repr, DecidableEq

/-- What `importlib.import_module(config)` followed by `list_repositories()`
does (multi.py 235-239): import failure, missing attribute, or a list. -/
inductive ModuleLoad where
  | importError
  | attributeError
  | repositories (libs : List Library)
deriving Repr, DecidableEq

/-- The ambient configuration sources probed by `load_config`:
`yamlFile = some doc` iff `os.path.exists(config)`, and the module-import
outcome for the same string. -/
structure ConfigEnv where
  yamlFile : Option YamlDoc
  moduleResult : ModuleLoad
deriving Repr, DecidableEq

/-- Embeds `load_config` (multi.py 201-240): if the path exists, return
`yaml.load(fh)["libraries"]` (a missing key raises `KeyError`); otherwise the
module is imported and `list_repositories()` called, with `ImportError` and
`AttributeError` caught, falling through to `None`. -/
def load_config (env : ConfigEnv) : Except PyError (Option (List Library)) :=
  match env.yamlFile with
  | some doc =>
    match doc.libraries with
    | some libs => Except.ok (some libs)
    | none => Except.error PyError.keyError
  | none =>
    match env.moduleResult with
    | ModuleLoad.repositories libs => Except.ok (some libs)
    | ModuleLoad.importError => Except.ok none
    | ModuleLoad.attributeError => Except.ok none

/-- Embeds the `try: report_to_github(...) except requests.HTTPError: pass`
of `main` (multi.py 265-275).  An HTTP failure of the call is modelled as
raised before any tracker mutation; the except clause swallows it. -/
def try_report_to_github (api : String → String → Option String) (kokoro : String)
    (raises : Bool) (st : RunState) (name repository : String) (error : Bool)
    (output : String) : RunState :=
  match (if raises then Except.error PyError.httpError
         else Except.ok (report_to_github api kokoro st name repository error output)) with
  | Except.ok st1 => st1
  | Except.error _ => st

/-- The per-library loop of `main` (multi.py 257-275): synthesize, collect
the result, then report to GitHub unless `no_create_issue` is set, HTTP
errors swallowed.  `exec` gives each iteration's subprocess outcome and
`httpErr` says whether that iteration's report call raises. -/
def main_loop (api : String → String → Option String) (kokoro : String)
    (exec : Nat → Int × String) (httpErr : Nat → Bool) (pythonExe : String)
    (extra_args : List String) :
    List Library → Nat → RunState → List SynthResult × RunState
  | [], _, st => ([], st)
  | library :: rest, i, st =>
    let result :=
      (synthesize_library pythonExe library extra_args (fun _ => exec i)).1
    let st1 :=
      if library.noCreateIssue then st
      else
        try_report_to_github api kokoro (httpErr i) st library.name
          library.repository result.error result.output
    let restResults := main_loop api kokoro exec httpErr pythonExe extra_args rest (i + 1) st1
    (result :: restResults.1, restResults.2)

/-- What one whole run of `main` produces: the process exit status, the
report rendered by `make_report` (when reached), the per-library results
and the final tracker state. -/
structure MainOutcome where
  exitCode : Nat
  report : Option Report
  results : List SynthResult
  gh : RunState
deriving Repr, DecidableEq

/-- Embeds `main` (multi.py 243-282): load the config —
`sys.exit("No configuration could be loaded.")` exits with status 1 and no
report — then run every library, write the report unconditionally, and exit
1 exactly when some result has the error flag. -/
def Multi.main (env : ConfigEnv) (api : String → String → Option String) (kokoro : String)
    (exec : Nat → Int × String) (httpErr : Nat → Bool) (pythonExe : String)
    (config_arg : String) (extra_args : List String) (st0 : RunState) :
    Except PyError MainOutcome :=
  match load_config env with
  | Except.error e => Except.error e
  | Except.ok none =>
    Except.ok { exitCode := 1, report := none, results := [], gh := st0 }
  | Except.ok (some config) =>
    let lr := main_loop api kokoro exec httpErr pythonExe (extra_args.drop 1) config 0 st0
    let num_failures := (lr.1.filter (fun result => result.error)).length
    Except.ok
      { exitCode := if num_failures > 0 then 1 else 0
        report := some (make_report config_arg lr.1)
        results := lr.1
        gh := lr.2 }

/-! ## Concrete fixtures used by witnesses and counterexamples -/

/-- An API-label oracle with no mapping for any repository. -/
def apiNone : String → String → Option String := fun _ _ => none

/-- A run against an empty tracker, with an empty per-run cache. -/
def stEmpty : RunState :=
  { tracker := [], nextNumber := 1, cache := [], trace := [] }

/-- An open autosynth-failure issue for the library "speech". -/
def issueA : Issue :=
  { number := 7, title := "Synthesis failed for speech", state := "open",
    labels := ["autosynth failure"] }

/-- A run whose tracker already holds `issueA`. -/
def stWithIssue : RunState :=
  { tracker := [("googleapis/s", issueA)], nextNumber := 8, cache := [], trace := [] }

/-- A library configuration with every optional field set. -/
def exampleLibrary : Library :=
  { name := "bigquery", repository := "googleapis/python-bigquery",
    synthPath := some "bq", branchSuffix := some "sfx", prTitle := some "pr",
    metadataPath := some "meta", deprecatedExecution := true, noCreateIssue := false }

/-- A minimal library configuration. -/
def libOk : Library := { name := "a", repository := "o/a" }

/-- A second minimal library configuration. -/
def libBad : Library := { name := "b", repository := "o/b" }

/-- A YAML document whose `libraries` key holds one library. -/
def docOne : YamlDoc := { libraries := some [libOk] }

/-- A YAML document whose `libraries` key holds two libraries. -/
def docTwo : YamlDoc := { libraries := some [libOk, libBad] }

/-- Config environment: the YAML file exists and holds one library. -/
def envYaml : ConfigEnv :=
  { yamlFile := some docOne, moduleResult := ModuleLoad.importError }

/-- Config environment: no file, the provider module yields one library. -/
def envModule : ConfigEnv :=
  { yamlFile := none, moduleResult := ModuleLoad.repositories [libOk] }

/-- Config environment: no file and the import fails. -/
def envNone : ConfigEnv :=
  { yamlFile := none, moduleResult := ModuleLoad.importError }

/-- Config environment: the YAML file exists and holds two libraries. -/
def envTwo : ConfigEnv :=
  { yamlFile := some docTwo, moduleResult := ModuleLoad.importError }

/-- Subprocess oracle: the first library exits 0, every later one exits 1. -/
def exec2 : Nat → Int × String := fun i => if i == 0 then (0, "ok") else (1, "boom")

/-- HTTP oracle under which every tracker call raises. -/
def httpAll : Nat → Bool := fun _ => true

/-! ## Helper lemmas about the cached issue fetch and the reporter -/

theorem cached_snd_trace (st : RunState) (r s l : String) :
    ((_list_issues_cached st r s l).2).trace = st.trace := by
  cases h : st.cache.find? (fun e => e.1.1 == r && e.1.2.1 == s && e.1.2.2 == l) <;>
    simp [_list_issues_cached, h]

theorem cached_snd_tracker (st : RunState) (r s l : String) :
    ((_list_issues_cached st r s l).2).tracker = st.tracker := by
  cases h : st.cache.find? (fun e => e.1.1 == r && e.1.2.1 == s && e.1.2.2 == l) <;>
    simp [_list_issues_cached, h]

/-- A second fetch against any state carrying the cache produced by a first
fetch is a cache hit: it returns the first fetch's list and leaves the state
unchanged. -/
theorem cached_fetch_stable (st st2 : RunState) (r s l : String)
    (hc : st2.cache = ((_list_issues_cached st r s l).2).cache) :
    _list_issues_cached st2 r s l = ((_list_issues_cached st r s l).1, st2) := by
  cases h : st.cache.find? (fun e => e.1.1 == r && e.1.2.1 == s && e.1.2.2 == l) with
  | some e =>
    have hc2 : st2.cache = st.cache := by simpa [_list_issues_cached, h] using hc
    simp [_list_issues_cached, hc2, h]
  | none =>
    have hc2 : st2.cache = st.cache ++ [((r, s, l), list_issues st r s l)] := by
      simpa [_list_issues_cached, h] using hc
    have hfind : st2.cache.find?
        (fun e => e.1.1 == r && e.1.2.1 == s && e.1.2.2 == l) =
        some ((r, s, l), list_issues st r s l) := by
      rw [hc2, List.find?_append, h]
      simp [List.find?]
    simp [_list_issues_cached, hfind, h]

/-- Failure path, no matching issue in the fetched list: the reporter is the
issue creation applied to the post-fetch state. -/
theorem report_failure_none_eq (api : String → String → Option String)
    (kokoro : String) (st : RunState) (name repository output : String)
    (h : (((_list_issues_cached st repository "open" "autosynth failure").1).filter
        (fun issue => issue.title == "Synthesis failed for " ++ name)).head? = none) :
    report_to_github api kokoro st name repository true output =
      (create_issue ((_list_issues_cached st repository "open" "autosynth failure").2)
        repository ("Synthesis failed for " ++ name)
        (issue_details name kokoro output) (failure_labels api repository name)).2 := by
  simp [report_to_github, h, _file_or_comment_on_issue]

/-- Failure path, a matching issue in the fetched list: the reporter is the
"still failing" comment applied to the post-fetch state. -/
theorem report_failure_some_eq (api : String → String → Option String)
    (kokoro : String) (st : RunState) (name repository output : String) (issue : Issue)
    (h : (((_list_issues_cached st repository "open" "autosynth failure").1).filter
        (fun issue => issue.title == "Synthesis failed for " ++ name)).head? = some issue) :
    report_to_github api kokoro st name repository true output =
      create_issue_comment ((_list_issues_cached st repository "open" "autosynth failure").2)
        repository issue.number (still_failing_comment name kokoro output) := by
  simp [report_to_github, h, _file_or_comment_on_issue]

/-- Success path, a matching issue in the fetched list: the reporter is the
closing comment followed by the close patch, applied to the post-fetch
state. -/
theorem report_success_some_eq (api : String → String → Option String)
    (kokoro : String) (st : RunState) (name repository output : String) (issue : Issue)
    (h : (((_list_issues_cached st repository "open" "autosynth failure").1).filter
        (fun issue => issue.title == "Synthesis failed for " ++ name)).head? = some issue) :
    report_to_github api kokoro st name repository false output =
      patch_issue
        (create_issue_comment
          ((_list_issues_cached st repository "open" "autosynth failure").2)
          repository issue.number "Autosynth passed, closing! :green_heart:")
        repository issue.number "closed" := by
  simp [report_to_github, h, _close_issue]

/-- Success path, no matching issue: the reporter returns the post-fetch
state unchanged. -/
theorem report_success_none_eq (api : String → String → Option String)
    (kokoro : String) (st : RunState) (name repository output : String)
    (h : (((_list_issues_cached st repository "open" "autosynth failure").1).filter
        (fun issue => issue.title == "Synthesis failed for " ++ name)).head? = none) :
    report_to_github api kokoro st name repository false output =
      (_list_issues_cached st repository "open" "autosynth failure").2 := by
  simp [report_to_github, h, _close_issue]

theorem create_issue_snd_trace (st : RunState) (r t b : String) (ls : List String) :
    ((create_issue st r t b ls).2).trace = st.trace ++ [GhAction.createIssue r t b ls] := rfl

theorem create_issue_comment_trace (st : RunState) (r : String) (n : Nat) (c : String) :
    (create_issue_comment st r n c).trace = st.trace ++ [GhAction.createIssueComment r n c] := rfl

theorem patch_issue_trace (st : RunState) (r : String) (n : Nat) (s : String) :
    (patch_issue st r n s).trace = st.trace ++ [GhAction.patchIssue r n s] := rfl

theorem main_loop_length (api : String → String → Option String) (kokoro : String)
    (exec : Nat → Int × String) (httpErr : Nat → Bool) (pythonExe : String)
    (extra_args : List String) :
    ∀ (libs : List Library) (i : Nat) (st : RunState),
      (main_loop api kokoro exec httpErr pythonExe extra_args libs i st).1.length =
        libs.length := by
  intro libs
  induction libs with
  | nil => intro i st; simp [main_loop]
  | cons lib rest ih => intro i st; simp [main_loop, ih]

theorem main_loop_results_indep (api : String → String → Option String) (kokoro : String)
    (exec : Nat → Int × String) (pythonExe : String) (extra_args : List String)
    (h1 h2 : Nat → Bool) :
    ∀ (libs : List Library) (i : Nat) (s1 s2 : RunState),
      (main_loop api kokoro exec h1 pythonExe extra_args libs i s1).1 =
      (main_loop api kokoro exec h2 pythonExe extra_args libs i s2).1 := by
  intro libs
  induction libs with
  | nil => intro i s1 s2; simp [main_loop]
  | cons lib rest ih => intro i s1 s2; simp [main_loop]; exact ih (i + 1) _ _

/-! ## Claim theorems -/

/-- C4: every LogCollector reachable through the public interface (the
constructor followed by any sequence of add_success / add_failure calls)
makes write_xml_log fail with AttributeError, because LogCollector stores
its entries in the `successes` and `failures` lists and defines no
`log_entries` attribute, which write_xml_log reads unconditionally; the
XML report writer therefore never succeeds on any collector state. -/
theorem c4_write_xml_log_attribute_error (name output_file_path : String)
    (ops : List LogOp) :
    write_xml_log name (LogCollector.init.applyOps ops) output_file_path =
      Except.error PyError.attributeError := rfl

/-- C2 (code bug): the generator subprocess is NOT invoked with the
documented flags.  `synthesize_library` builds `library_args` — the four
always-present flags plus the optional ones — but line 73 of multi.py calls
`runner(command, env)`, so the runner receives only
`[sys.executable, "-m", "autosynth.synth"]`; `library_args` and
`extra_args` are dropped.  Evaluated here at a fully populated library
configuration with a recording runner. -/
theorem c2_runner_gets_bare_command :
    (synthesize_library "python3" exampleLibrary ["--extra-flag"]
      (fun cmd => (0, String.intercalate " " cmd))).2 =
      ["python3", "-m", "autosynth.synth"] ∧
    (synthesize_library "python3" exampleLibrary ["--extra-flag"]
      (fun cmd => (0, String.intercalate " " cmd))).1.output =
      "python3 -m autosynth.synth" ∧
    library_args exampleLibrary =
      ["--repository", "googleapis/python-bigquery", "--synth-path", "bq",
       "--branch-suffix", "sfx", "--pr-title", "pr", "--metadata-path", "meta",
       "--deprecated-execution"] ∧
    "--repository" ∉ (synthesize_library "python3" exampleLibrary ["--extra-flag"]
      (fun cmd => (0, String.intercalate " " cmd))).2 := by
  refine ⟨rfl, rfl, rfl, ?_⟩
  decide

/-- C5: on a failing run, if no issue in the fetched open-issue list is
titled "Synthesis failed for {name}", the reporter performs exactly one
tracker mutation: creating an issue with that title, the body embedding the
captured output and the build-log link, and the fixed labels plus the
API-specific label exactly when the mapping yields one; if a matching issue
exists, it performs exactly one mutation: the "still failing" comment on
that issue, and creates no issue. -/
theorem c5_failure_reporting (api : String → String → Option String)
    (kokoro : String) (st : RunState) (name repository output : String) :
    ((((_list_issues_cached st repository "open" "autosynth failure").1).filter
        (fun issue => issue.title == "Synthesis failed for " ++ name)).head? = none →
      (report_to_github api kokoro st name repository true output).trace =
        st.trace ++ [GhAction.createIssue repository ("Synthesis failed for " ++ name)
          (issue_details name kokoro output) (failure_labels api repository name)]) ∧
    (∀ issue : Issue,
      (((_list_issues_cached st repository "open" "autosynth failure").1).filter
        (fun issue => issue.title == "Synthesis failed for " ++ name)).head? = some issue →
      (report_to_github api kokoro st name repository true output).trace =
        st.trace ++ [GhAction.createIssueComment repository issue.number
          (still_failing_comment name kokoro output)]) := by
  constructor
  · intro h
    rw [report_failure_none_eq api kokoro st name repository output h,
      create_issue_snd_trace, cached_snd_trace]
  · intro issue h
    rw [report_failure_some_eq api kokoro st name repository output issue h,
      create_issue_comment_trace, cached_snd_trace]

/-- C5 witness: both branches evaluated — a failing run against an empty
tracker creates the issue; a failing run with `issueA` already open posts
the comment. -/
theorem c5_failure_reporting_witness :
    (report_to_github apiNone "kid" stEmpty "speech" "googleapis/s" true "boom").trace =
      [GhAction.createIssue "googleapis/s" "Synthesis failed for speech"
        (issue_details "speech" "kid" "boom")
        (failure_labels apiNone "googleapis/s" "speech")] ∧
    (report_to_github apiNone "kid" stWithIssue "speech" "googleapis/s" true "boom").trace =
      [GhAction.createIssueComment "googleapis/s" 7
        (still_failing_comment "speech" "kid" "boom")] := by
  constructor
  · have h := (c5_failure_reporting apiNone "kid" stEmpty "speech" "googleapis/s" "boom").1
      (by rfl)
    simpa [stEmpty] using h
  · have h := (c5_failure_reporting apiNone "kid" stWithIssue "speech" "googleapis/s" "boom").2
      issueA (by rfl)
    simpa [stWithIssue, issueA] using h

/-- C6: on a successful run, if an open issue titled
"Synthesis failed for {name}" is in the fetched list, the reporter posts
the closing comment and then patches that issue's state to "closed",
creating no new issue; if no matching issue is found it performs no tracker
mutation at all (trace and tracker unchanged). -/
theorem c6_success_reporting (api : String → String → Option String)
    (kokoro : String) (st : RunState) (name repository output : String) :
    (∀ issue : Issue,
      (((_list_issues_cached st repository "open" "autosynth failure").1).filter
        (fun issue => issue.title == "Synthesis failed for " ++ name)).head? = some issue →
      (report_to_github api kokoro st name repository false output).trace =
        st.trace ++ [GhAction.createIssueComment repository issue.number
            "Autosynth passed, closing! :green_heart:",
          GhAction.patchIssue repository issue.number "closed"]) ∧
    ((((_list_issues_cached st repository "open" "autosynth failure").1).filter
        (fun issue => issue.title == "Synthesis failed for " ++ name)).head? = none →
      (report_to_github api kokoro st name repository false output).trace = st.trace ∧
      (report_to_github api kokoro st name repository false output).tracker = st.tracker) := by
  constructor
  · intro issue h
    rw [report_success_some_eq api kokoro st name repository output issue h,
      patch_issue_trace, create_issue_comment_trace, cached_snd_trace]
    simp
  · intro h
    rw [report_success_none_eq api kokoro st name repository output h]
    exact ⟨cached_snd_trace st repository "open" "autosynth failure",
      cached_snd_tracker st repository "open" "autosynth failure"⟩

/-- C6 witness: a successful run with `issueA` open comments and closes it;
a successful run against an empty tracker mutates nothing. -/
theorem c6_success_reporting_witness :
    (report_to_github apiNone "kid" stWithIssue "speech" "googleapis/s" false "ok").trace =
      [GhAction.createIssueComment "googleapis/s" 7 "Autosynth passed, closing! :green_heart:",
       GhAction.patchIssue "googleapis/s" 7 "closed"] ∧
    (report_to_github apiNone "kid" stEmpty "speech" "googleapis/s" false "ok").trace = [] ∧
    (report_to_github apiNone "kid" stEmpty "speech" "googleapis/s" false "ok").tracker = [] := by
  refine ⟨?_, ?_, ?_⟩
  · have h := (c6_success_reporting apiNone "kid" stWithIssue "speech" "googleapis/s" "ok").1
      issueA (by rfl)
    simpa [stWithIssue, issueA] using h
  · have h := ((c6_success_reporting apiNone "kid" stEmpty "speech" "googleapis/s" "ok").2
      (by rfl)).1
    simpa [stEmpty] using h
  · have h := ((c6_success_reporting apiNone "kid" stEmpty "speech" "googleapis/s" "ok").2
      (by rfl)).2
    simpa [stEmpty] using h

/-- C3 counterexample: the claim "the reporter never both posts a comment on
an issue and closes (patches) that same issue within one invocation" is
false.  On the success path with `issueA` open, one invocation posts the
closing comment on issue 7 AND patches issue 7 to closed
(`_close_issue`, multi.py 113-125). -/
theorem c3_counterexample_comment_and_close :
    (report_to_github apiNone "kid" stWithIssue "speech" "googleapis/s" false "ok").trace =
      [GhAction.createIssueComment "googleapis/s" 7 "Autosynth passed, closing! :green_heart:",
       GhAction.patchIssue "googleapis/s" 7 "closed"] := by
  rfl

/-- C3 amended: for every single invocation of the reporter, at most one
tracker issue changes state — the emitted mutations are one of: nothing, a
single issue creation, a single comment, or a comment followed by a close
patch on that same one issue.  (The original claim's further clause that
the reporter never both comments on and closes the same issue is false: the
success path does exactly that, see the counterexample.) -/
theorem c3_at_most_one_issue (api : String → String → Option String)
    (kokoro : String) (st : RunState) (name repository : String) (error : Bool)
    (output : String) :
    (report_to_github api kokoro st name repository error output).trace = st.trace ∨
    (∃ title body labels,
      (report_to_github api kokoro st name repository error output).trace =
        st.trace ++ [GhAction.createIssue repository title body labels]) ∨
    (∃ n c,
      (report_to_github api kokoro st name repository error output).trace =
        st.trace ++ [GhAction.createIssueComment repository n c]) ∨
    (∃ n,
      (report_to_github api kokoro st name repository error output).trace =
        st.trace ++ [GhAction.createIssueComment repository n
            "Autosynth passed, closing! :green_heart:",
          GhAction.patchIssue repository n "closed"]) := by
  cases error with
  | false =>
    cases hh : (((_list_issues_cached st repository "open" "autosynth failure").1).filter
        (fun issue => issue.title == "Synthesis failed for " ++ name)).head? with
    | none =>
      left
      rw [report_success_none_eq api kokoro st name repository output hh]
      exact cached_snd_trace st repository "open" "autosynth failure"
    | some issue =>
      right; right; right
      refine ⟨issue.number, ?_⟩
      rw [report_success_some_eq api kokoro st name repository output issue hh,
        patch_issue_trace, create_issue_comment_trace, cached_snd_trace]
      simp
  | true =>
    cases hh : (((_list_issues_cached st repository "open" "autosynth failure").1).filter
        (fun issue => issue.title == "Synthesis failed for " ++ name)).head? with
    | none =>
      right; left
      refine ⟨"Synthesis failed for " ++ name, issue_details name kokoro output,
        failure_labels api repository name, ?_⟩
      rw [report_failure_none_eq api kokoro st name repository output hh,
        create_issue_snd_trace, cached_snd_trace]
    | some issue =>
      right; right; left
      refine ⟨issue.number, still_failing_comment name kokoro output, ?_⟩
      rw [report_failure_some_eq api kokoro st name repository output issue hh,
        create_issue_comment_trace, cached_snd_trace]

/-- C1 counterexample: the claim "calling report_to_github twice in a row
with the same unchanged failing result creates at most one issue for the
(repository, issue_title) pair" is false.  Against a tracker with no
matching issue, the first call fetches the pre-creation list, creates an
issue, and `_list_issues_cached` memoizes that stale list; the second call
hits the cache, again finds no matching issue, and creates a second issue
for the same (repository, issue title) pair. -/
theorem c1_counterexample_duplicate_issue :
    ((report_to_github apiNone "kid"
        (report_to_github apiNone "kid" stEmpty "speech" "googleapis/s" true "boom")
        "speech" "googleapis/s" true "boom").trace.filter
      (fun a =>
        match a with
        | GhAction.createIssue r t _ _ =>
          r == "googleapis/s" && t == "Synthesis failed for speech"
        | _ => false)).length = 2 := by
  rfl

/-- C1 amended: the second call finds the existing issue in the per-run
cached list and comments instead of creating only when a matching issue was
already present in the list fetched by the first call.  In that case two
consecutive calls with the same unchanged failing result create no issue at
all: both post the "still failing" comment on the cached issue.  (When no
matching issue was in the fetched list, each call creates an issue — see
the counterexample.) -/
theorem c1_double_failure_report (api : String → String → Option String)
    (kokoro : String) (st : RunState) (name repository output : String) (issue : Issue)
    (h : (((_list_issues_cached st repository "open" "autosynth failure").1).filter
        (fun issue => issue.title == "Synthesis failed for " ++ name)).head? = some issue) :
    (report_to_github api kokoro
        (report_to_github api kokoro st name repository true output)
        name repository true output).trace =
      st.trace ++
        [GhAction.createIssueComment repository issue.number
          (still_failing_comment name kokoro output),
         GhAction.createIssueComment repository issue.number
          (still_failing_comment name kokoro output)] := by
  have h1 := report_failure_some_eq api kokoro st name repository output issue h
  have hstable := cached_fetch_stable st
    (create_issue_comment ((_list_issues_cached st repository "open" "autosynth failure").2)
      repository issue.number (still_failing_comment name kokoro output))
    repository "open" "autosynth failure" rfl
  have h2 : (((_list_issues_cached
      (create_issue_comment ((_list_issues_cached st repository "open" "autosynth failure").2)
        repository issue.number (still_failing_comment name kokoro output))
      repository "open" "autosynth failure").1).filter
        (fun issue => issue.title == "Synthesis failed for " ++ name)).head? = some issue := by
    rw [hstable]
    exact h
  rw [h1]
  rw [report_failure_some_eq api kokoro _ name repository output issue h2,
    create_issue_comment_trace]
  rw [hstable]
  rw [create_issue_comment_trace, cached_snd_trace]
  simp

/-- C1 witness: with `issueA` already open before the first fetch, two
failing reports in a row post two comments on issue 7 and create nothing. -/
theorem c1_double_failure_report_witness :
    (report_to_github apiNone "kid"
        (report_to_github apiNone "kid" stWithIssue "speech" "googleapis/s" true "boom")
        "speech" "googleapis/s" true "boom").trace =
      [GhAction.createIssueComment "googleapis/s" 7
        (still_failing_comment "speech" "kid" "boom"),
       GhAction.createIssueComment "googleapis/s" 7
        (still_failing_comment "speech" "kid" "boom")] := by
  have h := c1_double_failure_report apiNone "kid" stWithIssue "speech" "googleapis/s"
    "boom" issueA (by rfl)
  simpa [stWithIssue, issueA] using h

/-- C7 (spec-modelled sentinel): when the generator subprocess exits with the
skip sentinel 28, the recorded result has error = false and skipped = true;
appending it to a report leaves the failure count unchanged and raises the
skip count by one; and the issue-reporting path run with that result's error
flag takes the success path — either no tracker mutation, or the comment
plus close patch on the one matching issue — never filing or commenting on
a failure issue. -/
theorem c7_skip_sentinel (pythonExe : String) (library : Library)
    (extra_args : List String) (out reportName : String) (rs : List SynthResult)
    (api : String → String → Option String) (kokoro : String) (st : RunState) :
    (synthesize_library pythonExe library extra_args (fun _ => (28, out))).1.error = false ∧
    (synthesize_library pythonExe library extra_args (fun _ => (28, out))).1.skipped = true ∧
    (make_report reportName
        (rs ++ [(synthesize_library pythonExe library extra_args (fun _ => (28, out))).1])).failures =
      (make_report reportName rs).failures ∧
    (make_report reportName
        (rs ++ [(synthesize_library pythonExe library extra_args (fun _ => (28, out))).1])).skips =
      (make_report reportName rs).skips + 1 ∧
    ((report_to_github api kokoro st library.name library.repository
        ((synthesize_library pythonExe library extra_args (fun _ => (28, out))).1.error)
        ((synthesize_library pythonExe library extra_args (fun _ => (28, out))).1.output)).trace =
        st.trace ∨
      ∃ n,
        (report_to_github api kokoro st library.name library.repository
          ((synthesize_library pythonExe library extra_args (fun _ => (28, out))).1.error)
          ((synthesize_library pythonExe library extra_args (fun _ => (28, out))).1.output)).trace =
          st.trace ++ [GhAction.createIssueComment library.repository n
              "Autosynth passed, closing! :green_heart:",
            GhAction.patchIssue library.repository n "closed"]) := by
  have herr : (synthesize_library pythonExe library extra_args
      (fun _ => (28, out))).1.error = false := rfl
  have hskip : (synthesize_library pythonExe library extra_args
      (fun _ => (28, out))).1.skipped = true := rfl
  refine ⟨herr, hskip, ?_, ?_, ?_⟩
  · simp [make_report, List.filter_append, List.filter, herr]
  · simp [make_report, List.filter_append, List.filter, hskip]
  · rw [herr]
    cases hh : (((_list_issues_cached st library.repository "open" "autosynth failure").1).filter
        (fun issue => issue.title == "Synthesis failed for " ++ library.name)).head? with
    | none =>
      left
      rw [report_success_none_eq api kokoro st library.name library.repository _ hh]
      exact cached_snd_trace st library.repository "open" "autosynth failure"
    | some issue =>
      right
      refine ⟨issue.number, ?_⟩
      rw [report_success_some_eq api kokoro st library.name library.repository _ issue hh,
        patch_issue_trace, create_issue_comment_trace, cached_snd_trace]
      simp

/-- C8: load_config returns the YAML document's top-level `libraries` value
when the path exists; otherwise the provider module's `list_repositories()`
result; and when the file does not exist and neither module nor attribute
is importable it returns None, in which case the driver exits non-zero
(status 1 from `sys.exit` with a message) before processing any library,
with no report written. -/
theorem c8_load_config_and_abort (env : ConfigEnv) (doc : YamlDoc)
    (libs : List Library) (api : String → String → Option String) (kokoro : String)
    (exec : Nat → Int × String) (httpErr : Nat → Bool)
    (pythonExe config_arg : String) (extra_args : List String) (stInit : RunState) :
    (env.yamlFile = some doc → doc.libraries = some libs →
      load_config env = Except.ok (some libs)) ∧
    (env.yamlFile = none → env.moduleResult = ModuleLoad.repositories libs →
      load_config env = Except.ok (some libs)) ∧
    (env.yamlFile = none →
      (env.moduleResult = ModuleLoad.importError ∨
        env.moduleResult = ModuleLoad.attributeError) →
      load_config env = Except.ok none ∧
      Multi.main env api kokoro exec httpErr pythonExe config_arg extra_args stInit =
        Except.ok { exitCode := 1, report := none, results := [], gh := stInit }) := by
  refine ⟨?_, ?_, ?_⟩
  · intro h1 h2
    simp [load_config, h1, h2]
  · intro h1 h2
    simp [load_config, h1, h2]
  · intro h1 h2
    have hl : load_config env = Except.ok none := by
      rcases h2 with h2 | h2 <;> simp [load_config, h1, h2]
    exact ⟨hl, by simp [Multi.main, hl]⟩

/-- C8 witness: the three source scenarios evaluated — a YAML file with one
library, a provider module with one library, and neither, where the run
aborts with exit 1, no report and an untouched tracker state. -/
theorem c8_load_config_and_abort_witness :
    load_config envYaml = Except.ok (some [libOk]) ∧
    load_config envModule = Except.ok (some [libOk]) ∧
    (load_config envNone = Except.ok none ∧
      Multi.main envNone apiNone "kid" (fun _ => (0, "")) (fun _ => false) "python3"
          "cfg" [] stEmpty =
        Except.ok { exitCode := 1, report := none, results := [], gh := stEmpty }) := by
  refine ⟨?_, ?_, ?_⟩
  · exact (c8_load_config_and_abort envYaml docOne [libOk] apiNone "kid"
      (fun _ => (0, "")) (fun _ => false) "python3" "cfg" [] stEmpty).1 rfl rfl
  · exact (c8_load_config_and_abort envModule docOne [libOk] apiNone "kid"
      (fun _ => (0, "")) (fun _ => false) "python3" "cfg" [] stEmpty).2.1 rfl rfl
  · exact (c8_load_config_and_abort envNone docOne [libOk] apiNone "kid"
      (fun _ => (0, "")) (fun _ => false) "python3" "cfg" [] stEmpty).2.2 rfl (Or.inl rfl)

/-- C9: whenever the configuration loads, the driver processes every library
(one result per configured library), always builds the report — its
failures field being the number of results whose error flag is set — and
exits 1 exactly when that count is positive, 0 otherwise. -/
theorem c9_report_and_exit (env : ConfigEnv) (config : List Library)
    (api : String → String → Option String) (kokoro : String)
    (exec : Nat → Int × String) (httpErr : Nat → Bool)
    (pythonExe config_arg : String) (extra_args : List String) (stInit : RunState)
    (h : load_config env = Except.ok (some config)) :
    ∃ outc : MainOutcome,
      Multi.main env api kokoro exec httpErr pythonExe config_arg extra_args stInit =
        Except.ok outc ∧
      outc.results.length = config.length ∧
      outc.report = some (make_report config_arg outc.results) ∧
      (make_report config_arg outc.results).failures =
        (outc.results.filter (fun result => result.error)).length ∧
      outc.exitCode =
        (if (outc.results.filter (fun result => result.error)).length > 0 then 1 else 0) := by
  unfold Multi.main
  rw [h]
  exact ⟨_, rfl, main_loop_length api kokoro exec httpErr pythonExe (extra_args.drop 1)
    config 0 stInit, rfl, rfl, rfl⟩

/-- C9 witness: two libraries, the first exiting 0 and the second exiting 1;
the report is written with one failure and the process exits 1. -/
theorem c9_report_and_exit_witness :
    ∃ outc : MainOutcome,
      Multi.main envTwo apiNone "kid" exec2 (fun _ => false) "python3" "cfg" [] stEmpty =
        Except.ok outc ∧
      outc.results.length = ([libOk, libBad] : List Library).length ∧
      outc.report = some (make_report "cfg" outc.results) ∧
      (make_report "cfg" outc.results).failures =
        (outc.results.filter (fun result => result.error)).length ∧
      outc.exitCode =
        (if (outc.results.filter (fun result => result.error)).length > 0 then 1 else 0) :=
  c9_report_and_exit envTwo [libOk, libBad] apiNone "kid" exec2 (fun _ => false)
    "python3" "cfg" [] stEmpty rfl

/-- C10: HTTP errors raised while the reporter talks to the tracker are
caught and suppressed at the call site in the driver loop: under an
arbitrary HTTP-failure oracle the run reaches the same results, the same
exit code and the same report as the run in which no tracker call fails,
and every configured library is executed and its result reported. -/
theorem c10_http_error_suppressed (env : ConfigEnv) (config : List Library)
    (api : String → String → Option String) (kokoro : String)
    (exec : Nat → Int × String) (httpErr : Nat → Bool)
    (pythonExe config_arg : String) (extra_args : List String) (stInit : RunState)
    (h : load_config env = Except.ok (some config)) :
    ∃ outc outN : MainOutcome,
      Multi.main env api kokoro exec httpErr pythonExe config_arg extra_args stInit =
        Except.ok outc ∧
      Multi.main env api kokoro exec (fun _ => false) pythonExe config_arg extra_args stInit =
        Except.ok outN ∧
      outc.results = outN.results ∧
      outc.exitCode = outN.exitCode ∧
      outc.report = outN.report ∧
      outc.results.length = config.length := by
  unfold Multi.main
  rw [h]
  have hr := main_loop_results_indep api kokoro exec pythonExe (extra_args.drop 1)
    httpErr (fun _ => false) config 0 stInit stInit
  exact ⟨_, _, rfl, rfl, hr, by rw [hr], by rw [hr],
    main_loop_length api kokoro exec httpErr pythonExe (extra_args.drop 1) config 0 stInit⟩

/-- C10 witness: with every tracker call raising, the two-library run still
executes both libraries and produces the same results, exit code and report
as the run with no HTTP failures. -/
theorem c10_http_error_suppressed_witness :
    ∃ outc outN : MainOutcome,
      Multi.main envTwo apiNone "kid" exec2 httpAll "python3" "cfg" [] stEmpty =
        Except.ok outc ∧
      Multi.main envTwo apiNone "kid" exec2 (fun _ => false) "python3" "cfg" [] stEmpty =
        Except.ok outN ∧
      outc.results = outN.results ∧
      outc.exitCode = outN.exitCode ∧
      outc.report = outN.report ∧
      outc.results.length = ([libOk, libBad] : List Library).length :=
  c10_http_error_suppressed envTwo [libOk, libBad] apiNone "kid" exec2 httpAll
    "python3" "cfg" [] stEmpty rfl
